import Mathlib

/-!
Verification development for the SSR / route-resolution core of a web
application framework (server renderer, route matcher, session subsystem).

The definitions below are shallow embeddings of the TypeScript sources:
- `src/unnamed/part_001` : `MemorySessionStorage` and `SessionImpl`
- `src/server/renderer.ts` : `matchRoute` and the SSR document-rewrite path

JavaScript machine state is made explicit: `Date.now()` becomes a `now : Int`
parameter, the mutable storage map becomes an association list threaded
through the operations, and `await` sequencing is captured by an explicit
event trace where the ordering of effects matters.
-/

namespace Aleph

/-- A JSON value, used for session payloads, data-loader results and
response bodies. -/
inductive Json where
  | str (s : String)
  | num (n : Int)
  | boolean (b : Bool)
  | null
  | arr (xs : List Json)
  | obj (kvs : List (String × Json))

/-- JavaScript truthiness of a JSON value (`if (v)`): `null`, `false`, `0`
and the empty string are falsy; arrays and objects are always truthy. -/
def Json.truthy : Json → Bool
  | .str s => !(s = "")
  | .num n => !(n = 0)
  | .boolean b => b
  | .null => false
  | .arr _ => true
  | .obj _ => true

/-- Association-list lookup keyed by strings (the `Map.get` of the source). -/
def lookupKey {β : Type} (sid : String) : List (String × β) → Option β
  | [] => none
  | (k, v) :: rest => if k = sid then some v else lookupKey sid rest

/-- Association-list removal (the `Map.delete` of the source). -/
def eraseKey {β : Type} (sid : String) : List (String × β) → List (String × β)
  | [] => []
  | (k, v) :: rest => if k = sid then eraseKey sid rest else (k, v) :: eraseKey sid rest

/-- Association-list overwrite (the `Map.set` of the source): replaces the
binding in place when present, appends otherwise. -/
def setKey {β : Type} (sid : String) (v : β) : List (String × β) → List (String × β)
  | [] => [(sid, v)]
  | (k, w) :: rest => if k = sid then (sid, v) :: rest else (k, w) :: setKey sid v rest

/-! ## Session storage (src/unnamed/part_001) -/

/-- The default in-memory session storage: a map from session id to a pair of
payload and absolute expiry timestamp in milliseconds since epoch. -/
structure MemorySessionStorage (P : Type) where
  store : List (String × (P × Int))

/-- `MemorySessionStorage.get`: the stored pair defaults to
`[undefined, 0]` when absent; a record whose expiry is positive and strictly
in the past is deleted and reported absent; otherwise the payload (possibly
absent) is returned with the map untouched. Returns the result together with
the post-state of the map. -/
def MemorySessionStorage.get {P : Type} (σ : MemorySessionStorage P)
    (now : Int) (sid : String) : Option P × MemorySessionStorage P :=
  match lookupKey sid σ.store with
  | none => (none, σ)
  | some (data, expires) =>
    if expires > 0 ∧ now > expires then (none, ⟨eraseKey sid σ.store⟩)
    else (some data, σ)

/-- `MemorySessionStorage.set`: unconditionally overwrites the record. -/
def MemorySessionStorage.set {P : Type} (σ : MemorySessionStorage P)
    (sid : String) (data : P) (expires : Int) : MemorySessionStorage P :=
  ⟨setKey sid (data, expires) σ.store⟩

/-- `MemorySessionStorage.delete`: removes the record if present. -/
def MemorySessionStorage.delete {P : Type} (σ : MemorySessionStorage P)
    (sid : String) : MemorySessionStorage P :=
  ⟨eraseKey sid σ.store⟩

/-! ## Session lifecycle (src/unnamed/part_001, `SessionImpl`) -/

/-- Session options; `maxAge` is in seconds and defaults to 1800 at use
sites (`this.#options.maxAge ?? 1800`). -/
structure SessionOptions where
  maxAge : Option Int

/-- A session object: id, options, in-memory cached payload (`#store`) and
its storage backend, threaded explicitly. -/
structure SessionImpl (P : Type) where
  id : String
  options : SessionOptions
  store : Option P
  storage : MemorySessionStorage P

/-- The `SessionImpl` constructor: the cached payload starts absent. -/
def newSession {P : Type} (id : String) (options : SessionOptions)
    (storage : MemorySessionStorage P) : SessionImpl P :=
  { id := id, options := options, store := none, storage := storage }

/-- `SessionImpl.init`: populates the cached payload from storage. -/
def SessionImpl.init {P : Type} (s : SessionImpl P) (now : Int) : SessionImpl P :=
  let r := s.storage.get now s.id
  { s with store := r.1, storage := r.2 }

/-- The argument to `SessionImpl.update`, discriminated the way the source
discriminates it with `typeof`: a literal payload (`typeof == "object"`), a
function from the previous payload to the next one
(`typeof == "function"`), or any other kind of value (carrying the name of
its `typeof` kind), which the source rejects. -/
inductive UpdateArg (P : Type) where
  | payload (p : P)
  | fn (f : Option P → P)
  | invalid (typeofKind : String)

/-- `SessionImpl.update`: rejects an argument that is neither an object nor
a function before touching storage; otherwise computes the next payload,
persists it with expiry `now + 1000 * (maxAge ?? 1800)`, and updates the
cache. The first component is the error message of the thrown `Error`, if
any; the second is the session state after the call. -/
def SessionImpl.update {P : Type} (s : SessionImpl P) (now : Int)
    (arg : UpdateArg P) : Option String × SessionImpl P :=
  match arg with
  | .invalid _ => (some ("store must be a valid object or a function"), s)
  | .fn f =>
    let nextStore := f s.store
    (none, { s with
      storage := s.storage.set s.id nextStore (now + 1000 * (s.options.maxAge.getD 1800)),
      store := some nextStore })
  | .payload p =>
    (none, { s with
      storage := s.storage.set s.id p (now + 1000 * (s.options.maxAge.getD 1800)),
      store := some p })

/-- `SessionImpl.end`: deletes the persisted record when the cached payload
is absent (`!this.#store`), then always clears the cache. -/
def SessionImpl.endSession {P : Type} (s : SessionImpl P) : SessionImpl P :=
  if s.store.isNone then
    { s with storage := s.storage.delete s.id, store := none }
  else
    { s with store := none }

/-! ## Route matching (src/server/renderer.ts, `matchRoute`) -/

/-- A resolved URL: pathname plus query parameters. -/
structure URLModel where
  pathname : String
  params : List (String × String)

/-- Splits a character list on the path separator, accumulating the current
segment in reverse. -/
def pathSegsAux : List Char → List Char → List String
  | [], cur => [String.mk cur.reverse]
  | c :: cs, cur =>
    if c = '/' then String.mk cur.reverse :: pathSegsAux cs []
    else pathSegsAux cs (c :: cur)

/-- Modelled from the spec: `util.cleanPath` lives in src/lib/util.ts, which
is not among the provided sources. The spec describes it as "normalize the
request pathname (collapse redundant separators, strip trailing slash except
root)": split on the separator, drop empty segments, and rejoin from the
root. -/
def cleanPath (p : String) : String :=
  let segs := (pathSegsAux p.data []).filter (fun s => !(s = ""))
  if segs.isEmpty then "/" else segs.foldl (fun acc s => acc ++ "/" ++ s) ""

/-- Modelled from the spec: `util.appendUrlParams` lives in src/lib/util.ts,
which is not among the provided sources. The spec describes it as "merge the
pattern's captured named groups into the URL as query parameters". -/
def appendUrlParams (url : URLModel) (groups : List (String × String)) : URLModel :=
  { url with params := url.params ++ groups }

/-- The result of a data-loader call, as `matchRoute` discriminates it with
`instanceof Response`: either a JS `Response` (status and the JSON value its
body parses to) or any non-Response return value. -/
inductive FetchRes where
  | response (status : Nat) (body : Json)
  | value (v : Json)

/-- The recognized fields of a route module's exported `data` object:
`get(request, ctx)`, `all(request)` and `cacheTtl`. Fields the module does
not define are `none`; the source guards each with a `typeof` check. -/
structure DataConfig where
  get : Option (URLModel → FetchRes)
  all : Option (URLModel → FetchRes)
  cacheTtl : Option Int

/-- A route table entry `[pattern, load, meta]`. The async loader is
modelled by the module record it resolves to; `dataExport` is `some` exactly
when `util.isPlainObject(mod.data)` holds (otherwise the source substitutes
the empty object `\x7b\x7d`, i.e. a `DataConfig` with every field absent).
The default export is modelled as an opaque identifier. -/
structure Route where
  pattern : String → Option (List (String × String))
  dataExport : Option DataConfig
  defaultExport : String
  filename : String

/-- The render context assembled by `matchRoute` and consumed by the SSR
path of the fetch handler. -/
structure RenderCtx where
  url : URLModel
  moduleDefaultExport : Option String
  filename : Option String
  data : Option Json
  dataExpires : Option Int

/-- The minimal context `\x7b url \x7d`: only the resolved URL, no module,
no data. -/
def minimalCtx (url : URLModel) : RenderCtx :=
  { url := url, moduleDefaultExport := none, filename := none,
    data := none, dataExpires := none }

/-- Observable loader-protocol events of one `matchRoute` run, listed in the
order the source awaits them: the route module loader, the collective
pre-fetch `all`, the per-request fetch `get`. Each carries the filename of
the route it belongs to. -/
inductive Ev where
  | load (filename : String)
  | callAll (filename : String)
  | callGet (filename : String)
deriving DecidableEq

/-- What `matchRoute` resolves to: a propagated `Response`, or a render
context. -/
inductive MatchResult where
  | resp (status : Nat) (body : Json)
  | ctx (route : RenderCtx)

/-- The render context `matchRoute` assembles for a matched route before any
data fetch: resolved URL with the captured groups merged in, the module's
default export and filename, the declared `cacheTtl`, and no data yet. -/
def routeCtx (req : URLModel) (r : Route) (groups : List (String × String))
    (dc : DataConfig) : RenderCtx :=
  { url := appendUrlParams req groups,
    moduleDefaultExport := some r.defaultExport,
    filename := some r.filename,
    data := none,
    dataExpires := dc.cacheTtl }

/-- The tail of `matchRoute` that invokes the per-request fetcher `get`:
a non-Response result is dropped on the floor; a Response with status other
than 200 is returned as-is; a 200 Response has its body parsed as JSON and
attached as the context's data. -/
def runGet (route : RenderCtx) (fetcher : URLModel → FetchRes)
    (request : URLModel) : MatchResult :=
  match fetcher request with
  | .response st b => if st ≠ 200 then .resp st b else .ctx { route with data := some b }
  | .value _ => .ctx route

/-- Embedding of `matchRoute` (src/server/renderer.ts lines 177-224).

Note a structural fact of the source that this definition preserves: the
`return route` statement sits inside the `for` loop body but outside the
`if (ret)` guard, so the loop body always returns during its first
iteration — only the first table entry is ever examined, and a non-matching
first entry yields the minimal context without trying later routes.

The second component is the trace of loader-protocol events in order. -/
def matchRoute (req : URLModel) (routes : List Route) : MatchResult × List Ev :=
  match routes with
  | [] => (.ctx (minimalCtx req), [])
  | r :: _ =>
    let pathname := cleanPath req.pathname
    match r.pattern pathname with
    | none => (.ctx (minimalCtx req), [])
    | some groups =>
      let dataConfig := r.dataExport.getD ⟨none, none, none⟩
      let route : RenderCtx := routeCtx req r groups dataConfig
      match dataConfig.get with
      | none => (.ctx route, [.load r.filename])
      | some fetcher =>
        let request := route.url
        match dataConfig.all with
        | none =>
          (runGet route fetcher request, [.load r.filename, .callGet r.filename])
        | some allFetcher =>
          match allFetcher request with
          | .response st b => (.resp st b, [.load r.filename, .callAll r.filename])
          | .value _ =>
            (runGet route fetcher request,
             [.load r.filename, .callAll r.filename, .callGet r.filename])

/-! ## SSR document rewriting (src/server/renderer.ts, `fetch`) -/

/-- One character of a JSON string literal as `JSON.stringify` emits it:
backslash and double quote are escaped. -/
def escapeJsonChar (c : Char) : String :=
  if c = '\\' then "\\\\" else if c = '"' then "\\\"" else String.singleton c

/-- The body of a JSON string literal as `JSON.stringify` emits it. -/
def escapeJsonString (s : String) : String :=
  String.join (s.toList.map escapeJsonChar)

mutual

/-- `JSON.stringify` on the modelled JSON values. -/
def Json.stringify : Json → String
  | .str s => "\"" ++ escapeJsonString s ++ "\""
  | .num n => toString n
  | .boolean b => if b then "true" else "false"
  | .null => "null"
  | .arr xs => "[" ++ stringifyArr xs ++ "]"
  | .obj kvs => "\x7b" ++ stringifyObj kvs ++ "\x7d"

/-- Comma-separated serialization of a JSON array's elements. -/
def stringifyArr : List Json → String
  | [] => ""
  | [x] => Json.stringify x
  | x :: xs => Json.stringify x ++ "," ++ stringifyArr xs

/-- Comma-separated serialization of a JSON object's key-value pairs. -/
def stringifyObj : List (String × Json) → String
  | [] => ""
  | [(k, v)] => "\"" ++ escapeJsonString k ++ "\":" ++ Json.stringify v
  | (k, v) :: kvs =>
    "\"" ++ escapeJsonString k ++ "\":" ++ Json.stringify v ++ "," ++ stringifyObj kvs

end

/-- Truthiness of the possibly-absent `route.dataExpires` number
(`route.dataExpires ?`): absent and 0 are falsy. -/
def numOptTruthy : Option Int → Bool
  | none => false
  | some n => !(n = 0)

/-- The SSR data script tag built by the ssr-head handler (renderer.ts lines
51-61). The source template writes the attribute value as the literal text
`route.dataExpires` — there is no `$`-interpolation around it — so the
attribute never carries the numeric duration. -/
def dataScriptTag (data : Json) (dataExpires : Option Int) : String :=
  let expiresAttr :=
    if numOptTruthy dataExpires then " data-expires=\"route.dataExpires\"" else ""
  "<script id=\"aleph-ssr-data\" type=\"application/json\"" ++ expiresAttr ++ ">"
    ++ Json.stringify data ++ "</script>"

/-- The hydration bootstrap script tag built by the ssr-head handler
(renderer.ts lines 62-71). -/
def moduleScriptTag (filename : String) : String :=
  "<script type=\"module\">import e from " ++ Json.stringify (.str filename)
    ++ ";window.__ssrModuleDefaultExport=e;</script>"

/-- Everything the ssr-head handler emits in place of the marker (renderer.ts
lines 48-74): each collected head fragment in order, then — when `route.data`
is truthy — the data script, then — when `route.filename` is truthy — the
module script; the marker element itself is removed (`el.remove()`). -/
def ssrHeadInsert (headCollection : List String) (route : RenderCtx) : List String :=
  headCollection
    ++ (match route.data with
        | some d => if d.truthy then [dataScriptTag d route.dataExpires] else []
        | none => [])
    ++ (match route.filename with
        | some f => if f = "" then [] else [moduleScriptTag f]
        | none => [])

/-- A token of the base document as the streaming engine hands it to the
registered handlers: the `<ssr-head>` marker, the `<ssr-body>` marker, or
any other chunk of markup (matched by no registered selector), which streams
through unchanged. -/
inductive Tok where
  | ssrHead
  | ssrBody
  | other (s : String)

/-- One token through the ssr-head / ssr-body handlers (renderer.ts
lines 48-79): the head marker becomes the inserted fragments (marker
removed), the body marker is replaced wholesale by the SSR markup string
(`el.replace(ssrOutput, \x7b html: true \x7d)`, raw and unescaped), and any
other token streams through. -/
def rewriteTok (headIns : List String) (ssrOutput : String) : Tok → List String
  | .ssrHead => headIns
  | .ssrBody => [ssrOutput]
  | .other s => [s]

/-- The rewritten document: the ordered concatenation of every token's
rewrite. -/
def rewriteDoc (headIns : List String) (ssrOutput : String) : List Tok → List String
  | [] => []
  | t :: ts => rewriteTok headIns ssrOutput t ++ rewriteDoc headIns ssrOutput ts

/-- Headers attached on the SSR path (renderer.ts line 28 and lines 80-84):
the Content-Type set when the header object is created, then Cache-Control
depending on whether `route.dataExpires` is a number. -/
def ssrHeaders (route : RenderCtx) : List (String × String) :=
  ("Content-Type", "text/html; charset=utf-8") ::
  (match route.dataExpires with
   | some n => [("Cache-Control", "public, max-age=" ++ toString n)]
   | none => [("Cache-Control", "public, max-age=0, must-revalidate")])

/-- The SSR path of the fetch handler, after `matchRoute` produced a render
context and the ssr callback returned a markup string: the response headers
and the rewritten document chunks. -/
def renderSSRResponse (indexHtml : List Tok) (route : RenderCtx)
    (headCollection : List String) (ssrOutput : String) :
    List (String × String) × List String :=
  (ssrHeaders route, rewriteDoc (ssrHeadInsert headCollection route) ssrOutput indexHtml)

/-! ## Concrete route tables used as test inputs -/

/-- A route whose pattern matches only the pathname `/a`. -/
def routeA : Route :=
  { pattern := fun p => if p = "/a" then some [] else none,
    dataExport := none, defaultExport := "A", filename := "/routes/a.tsx" }

/-- A route whose pattern matches only the pathname `/about`. -/
def routeAbout : Route :=
  { pattern := fun p => if p = "/about" then some [] else none,
    dataExport := none, defaultExport := "About", filename := "/routes/about.tsx" }

/-- A route exposing a collective pre-fetch `all` — which would return a 302
Response — but no per-request fetch `get`. -/
def routeAllOnly : Route :=
  { pattern := fun p => if p = "/x" then some [] else none,
    dataExport := some { get := none, all := some (fun _ => .response 302 .null),
                         cacheTtl := none },
    defaultExport := "X", filename := "/routes/x.tsx" }

/-- A route exposing both a `get` and an `all` that returns a 302 Response. -/
def routeBoth : Route :=
  { pattern := fun p => if p = "/b" then some [] else none,
    dataExport := some { get := some (fun _ => .value .null),
                         all := some (fun _ => .response 302 .null),
                         cacheTtl := none },
    defaultExport := "B", filename := "/routes/b.tsx" }

/-- A route exposing only a `get` that returns a plain JSON object (not a
Response). -/
def routeGetOnly : Route :=
  { pattern := fun p => if p = "/g" then some [] else none,
    dataExport := some { get := some (fun _ => .value (.obj [(("title"), .str ("Hi"))])),
                         all := none, cacheTtl := none },
    defaultExport := "G", filename := "/routes/g.tsx" }

/-! ## Association-list and rewrite helper lemmas -/

theorem lookupKey_setKey_self {β : Type} (sid : String) (v : β) (l : List (String × β)) :
    lookupKey sid (setKey sid v l) = some v := by
  induction l with
  | nil => simp [setKey, lookupKey]
  | cons hd tl ih =>
    obtain ⟨k, w⟩ := hd
    by_cases h : k = sid
    · simp [setKey, h, lookupKey]
    · simp [setKey, h, lookupKey, ih]

theorem lookupKey_setKey_other {β : Type} (sid sid' : String) (v : β)
    (l : List (String × β)) (h : sid' ≠ sid) :
    lookupKey sid' (setKey sid v l) = lookupKey sid' l := by
  have hns : ¬sid = sid' := fun e => h e.symm
  induction l with
  | nil => simp [setKey, lookupKey, hns]
  | cons hd tl ih =>
    obtain ⟨k, w⟩ := hd
    by_cases hk : k = sid
    · subst hk
      simp [setKey, lookupKey, hns]
    · simp only [setKey, hk, if_neg hk, lookupKey]
      by_cases hk' : k = sid'
      · simp [lookupKey, hk']
      · simp [lookupKey, hk', ih]

theorem lookupKey_eraseKey_self {β : Type} (sid : String) (l : List (String × β)) :
    lookupKey sid (eraseKey sid l) = none := by
  induction l with
  | nil => simp [eraseKey, lookupKey]
  | cons hd tl ih =>
    obtain ⟨k, w⟩ := hd
    by_cases h : k = sid
    · simp [eraseKey, h, ih]
    · simp [eraseKey, h, lookupKey, ih]

theorem lookupKey_eraseKey_other {β : Type} (sid sid' : String)
    (l : List (String × β)) (h : sid' ≠ sid) :
    lookupKey sid' (eraseKey sid l) = lookupKey sid' l := by
  have hns : ¬sid = sid' := fun e => h e.symm
  induction l with
  | nil => simp [eraseKey]
  | cons hd tl ih =>
    obtain ⟨k, w⟩ := hd
    by_cases hk : k = sid
    · subst hk
      simp [eraseKey, lookupKey, hns, ih]
    · simp [eraseKey, hk, lookupKey, ih]

theorem rewriteDoc_append (headIns : List String) (ssrOutput : String)
    (l₁ l₂ : List Tok) :
    rewriteDoc headIns ssrOutput (l₁ ++ l₂) =
      rewriteDoc headIns ssrOutput l₁ ++ rewriteDoc headIns ssrOutput l₂ := by
  induction l₁ with
  | nil => simp [rewriteDoc]
  | cons t ts ih => simp [rewriteDoc, ih]

theorem rewriteDoc_other_map (headIns : List String) (ssrOutput : String)
    (ss : List String) :
    rewriteDoc headIns ssrOutput (ss.map .other) = ss := by
  induction ss with
  | nil => simp [rewriteDoc]
  | cons s ss ih => simp [rewriteDoc, rewriteTok, ih]

/-! ## Claims about the session subsystem -/

/-- C3: session round-trip. `update(payload)` on a session with id S backed
by the default storage, followed by constructing a new session object with
the same id over the same (post-update) storage and calling `init()`, yields
a cached payload equal to `payload`, provided the `now + max-age` expiry has
not passed between the two steps. -/
theorem session_update_init_roundtrip {P : Type} (p : P) (sid : String)
    (opts2 : SessionOptions) (s : SessionImpl P) (t0 t1 : Int)
    (hid : s.id = sid)
    (h : t1 ≤ t0 + 1000 * (s.options.maxAge.getD 1800)) :
    ((newSession sid opts2 ((s.update t0 (.payload p)).2.storage)).init t1).store
      = some p := by
  have hlk : lookupKey sid (((s.update t0 (.payload p)).2.storage).store)
      = some (p, t0 + 1000 * (s.options.maxAge.getD 1800)) := by
    simp [SessionImpl.update, MemorySessionStorage.set, hid, lookupKey_setKey_self]
  have hc : ¬(t0 + 1000 * (s.options.maxAge.getD 1800) > 0 ∧
      t1 > t0 + 1000 * (s.options.maxAge.getD 1800)) := by omega
  simp [SessionImpl.init, newSession, MemorySessionStorage.get, hlk, hc]

/-- Witness for C3 at a concrete session: payload 7 stored at time 0 under
the default max-age is still cached by a fresh session initialized at time
1000. -/
theorem session_update_init_roundtrip_witness :
    ((newSession ("s1") ⟨none⟩
        ((((newSession ("s1") ⟨none⟩ (⟨[]⟩ : MemorySessionStorage Nat)).update 0
            (.payload 7)).2).storage)).init 1000).store = some 7 :=
  session_update_init_roundtrip 7 ("s1") ⟨none⟩ _ 0 1000 rfl (by decide)

/-- C4: `update` with an argument that is neither an object nor a function
reports the validation error and leaves the whole session state — the cached
payload and the persisted storage — exactly as it was before the call. -/
theorem session_update_invalid_arg {P : Type} (s : SessionImpl P) (now : Int)
    (k : String) :
    (s.update now (.invalid k)).1 = some ("store must be a valid object or a function") ∧
    (s.update now (.invalid k)).2 = s :=
  ⟨rfl, rfl⟩

/-- C5: the default in-memory storage's `get` returns the stored payload
exactly when a record exists whose expiry is ≤ 0 (never expires) or not yet
strictly passed by the current time; discovering an expired record deletes
it and reports absent; `set` and `delete` touch only their own key and
consult no clock, so expiry is enforced nowhere else. -/
theorem memory_storage_get_expiry {P : Type} (σ : MemorySessionStorage P)
    (now : Int) (sid : String) :
    (∀ d : P, (σ.get now sid).1 = some d ↔
        ∃ e, lookupKey sid σ.store = some (d, e) ∧ (e ≤ 0 ∨ now ≤ e)) ∧
    (∀ (d : P) e, lookupKey sid σ.store = some (d, e) → 0 < e → e < now →
        (σ.get now sid).1 = none ∧ lookupKey sid ((σ.get now sid).2.store) = none) ∧
    (∀ (d : P) e sid', ¬sid' = sid →
        lookupKey sid' ((σ.set sid d e).store) = lookupKey sid' σ.store) ∧
    (∀ sid', ¬sid' = sid →
        lookupKey sid' ((σ.delete sid).store) = lookupKey sid' σ.store) ∧
    (∀ (d : P) e, lookupKey sid ((σ.set sid d e).store) = some (d, e)) := by
  refine ⟨?_, ?_, ?_, ?_, ?_⟩
  · intro d
    constructor
    · intro hget
      cases hl : lookupKey sid σ.store with
      | none => simp [MemorySessionStorage.get, hl] at hget
      | some de =>
        obtain ⟨data, e⟩ := de
        by_cases hc : e > 0 ∧ now > e
        · simp [MemorySessionStorage.get, hl, hc] at hget
        · simp [MemorySessionStorage.get, hl, hc] at hget
          exact ⟨e, by subst hget; rfl, by omega⟩
    · rintro ⟨e, hl, hcond⟩
      have hc : ¬(e > 0 ∧ now > e) := by omega
      simp [MemorySessionStorage.get, hl, hc]
  · intro d e hl h0 hn
    have hc : e > 0 ∧ now > e := ⟨h0, hn⟩
    refine ⟨?_, ?_⟩
    · simp [MemorySessionStorage.get, hl, hc]
    · simp [MemorySessionStorage.get, hl, hc, lookupKey_eraseKey_self]
  · intro d e sid' h
    exact lookupKey_setKey_other sid sid' (d, e) σ.store h
  · intro sid' h
    exact lookupKey_eraseKey_other sid sid' σ.store h
  · intro d e
    exact lookupKey_setKey_self sid (d, e) σ.store

/-- Witness for C5: a record with expiry 5 read at time 10 is reported
absent and is deleted from the map by that read. -/
theorem memory_storage_get_expiry_witness :
    ((⟨[(("k1"), (42, 5))]⟩ : MemorySessionStorage Nat).get 10 ("k1")).1 = none ∧
    lookupKey ("k1")
      ((((⟨[(("k1"), (42, 5))]⟩ : MemorySessionStorage Nat).get 10 ("k1")).2).store) = none :=
  (memory_storage_get_expiry _ 10 ("k1")).2.1 42 5 rfl (by decide) (by decide)

/-- C6: `end()` deletes the persisted record exactly when the cached payload
is absent, always clears the cache, and — expiry aside — no other session
operation removes a storage entry: `update` never deletes a record, and
`init` changes the storage only by the lazy expiry deletion of the session's
own expired record. -/
theorem session_end_delete_iff_cache_empty {P : Type} (s : SessionImpl P) :
    ((s.endSession).store = none) ∧
    (s.store = none → lookupKey s.id ((s.endSession).storage.store) = none) ∧
    (∀ p : P, s.store = some p → (s.endSession).storage = s.storage) ∧
    (∀ sid', ¬sid' = s.id →
        lookupKey sid' ((s.endSession).storage.store) = lookupKey sid' s.storage.store) ∧
    (∀ now arg sid',
        lookupKey sid' (((s.update now arg).2).storage.store) = none →
        lookupKey sid' s.storage.store = none) ∧
    (∀ now sid',
        lookupKey sid' ((s.init now).storage.store) ≠ lookupKey sid' s.storage.store →
        sid' = s.id ∧ ∃ d e, lookupKey sid' s.storage.store = some (d, e) ∧
          0 < e ∧ e < now) := by
  refine ⟨?_, ?_, ?_, ?_, ?_, ?_⟩
  · unfold SessionImpl.endSession
    split <;> rfl
  · intro hs
    simp [SessionImpl.endSession, hs, MemorySessionStorage.delete, lookupKey_eraseKey_self]
  · intro p hs
    simp [SessionImpl.endSession, hs]
  · intro sid' h
    cases hs : s.store with
    | none =>
      simp [SessionImpl.endSession, hs, MemorySessionStorage.delete,
        lookupKey_eraseKey_other _ _ _ h]
    | some p => simp [SessionImpl.endSession, hs]
  · intro now arg sid' hafter
    cases arg with
    | invalid k => exact hafter
    | payload p =>
      by_cases hsid : sid' = s.id
      · rw [hsid] at hafter
        rw [show (((s.update now (.payload p)).2).storage).store
            = setKey s.id (p, now + 1000 * (s.options.maxAge.getD 1800)) s.storage.store
          from rfl, lookupKey_setKey_self] at hafter
        exact absurd hafter (by simp)
      · rwa [show (((s.update now (.payload p)).2).storage).store
            = setKey s.id (p, now + 1000 * (s.options.maxAge.getD 1800)) s.storage.store
          from rfl, lookupKey_setKey_other _ _ _ _ hsid] at hafter
    | fn f =>
      by_cases hsid : sid' = s.id
      · rw [hsid] at hafter
        rw [show (((s.update now (.fn f)).2).storage).store
            = setKey s.id (f s.store, now + 1000 * (s.options.maxAge.getD 1800)) s.storage.store
          from rfl, lookupKey_setKey_self] at hafter
        exact absurd hafter (by simp)
      · rwa [show (((s.update now (.fn f)).2).storage).store
            = setKey s.id (f s.store, now + 1000 * (s.options.maxAge.getD 1800)) s.storage.store
          from rfl, lookupKey_setKey_other _ _ _ _ hsid] at hafter
  · intro now sid' hchange
    cases hl : lookupKey s.id s.storage.store with
    | none =>
      exact absurd (by simp [SessionImpl.init, MemorySessionStorage.get, hl]) hchange
    | some de =>
      obtain ⟨d, e⟩ := de
      by_cases hc : e > 0 ∧ now > e
      · by_cases hsid : sid' = s.id
        · subst hsid
          exact ⟨rfl, d, e, hl, hc.1, hc.2⟩
        · refine absurd ?_ hchange
          simp [SessionImpl.init, MemorySessionStorage.get, hl, hc,
            lookupKey_eraseKey_other _ _ _ hsid]
      · exact absurd (by simp [SessionImpl.init, MemorySessionStorage.get, hl, hc]) hchange

/-- Witness for C6: ending a session whose cache is empty removes its
storage record. -/
theorem session_end_delete_iff_cache_empty_witness :
    lookupKey ("s2")
      (((newSession ("s2") ⟨none⟩
          (⟨[(("s2"), (9, 0))]⟩ : MemorySessionStorage Nat)).endSession).storage.store)
      = none :=
  (session_end_delete_iff_cache_empty
    (newSession ("s2") ⟨none⟩ (⟨[(("s2"), (9, 0))]⟩ : MemorySessionStorage Nat))).2.1 rfl

/-! ## Claims about the route matcher -/

/-- C1: code-bug exhibit. In a two-entry route table whose second entry is
the unique structural match for the request path `/about` (the first two
conjuncts show the normalized path matches exactly the second pattern),
`matchRoute` returns the minimal context — no filename, no module, no data —
with an empty event trace: no route's loader runs, because the source's
`return route` statement sits inside the `for` loop but outside the
`if (ret)` guard, so the walk never reaches the matching route. -/
theorem matchRoute_first_entry_only :
    (routeA.pattern (cleanPath ("/about")) = none) ∧
    (routeAbout.pattern (cleanPath ("/about")) = some []) ∧
    matchRoute { pathname := "/about", params := [] } [routeA, routeAbout]
      = (.ctx (minimalCtx { pathname := "/about", params := [] }), []) :=
  ⟨rfl, rfl, rfl⟩

/-- C2 counterexample: a matched route whose data object exposes `all`
(which would return a 302 Response) but no `get`. The source reaches the
`all` call only inside the `typeof get === "function"` guard, so `all` is
never invoked: the result is the ordinary render context — not the 302
Response the claim requires — and the trace records no `all` event. -/
theorem allFetcher_skipped_without_get :
    matchRoute { pathname := "/x", params := [] } [routeAllOnly]
      = (.ctx { url := { pathname := "/x", params := [] },
                moduleDefaultExport := some ("X"),
                filename := some ("/routes/x.tsx"),
                data := none, dataExpires := none },
         [.load ("/routes/x.tsx")]) :=
  rfl

/-- C2 (amended): when the first table entry matches and its data object
exposes both `get` and `all`, `all` is invoked first with the request
derived from the resolved URL and awaited to completion before `get`
begins; if `all` returns a Response, that Response is matchRoute's whole
result and `get` is never invoked; otherwise `get` runs strictly after
`all`, as the trace order shows. (When `get` is absent the source never
reaches the `all` call.) -/
theorem allFetcher_runs_before_get (req : URLModel) (r : Route)
    (rest : List Route) (groups : List (String × String)) (dc : DataConfig)
    (g a : URLModel → FetchRes)
    (hpat : r.pattern (cleanPath req.pathname) = some groups)
    (hdc : r.dataExport = some dc) (hg : dc.get = some g) (ha : dc.all = some a) :
    (∀ st b, a (appendUrlParams req groups) = .response st b →
        matchRoute req (r :: rest)
          = (.resp st b, [.load r.filename, .callAll r.filename])) ∧
    (∀ v, a (appendUrlParams req groups) = .value v →
        matchRoute req (r :: rest)
          = (runGet (routeCtx req r groups dc) g (appendUrlParams req groups),
             [.load r.filename, .callAll r.filename, .callGet r.filename])) := by
  constructor
  · intro st b hres
    simp [matchRoute, hpat, hdc, hg, ha, routeCtx, hres]
  · intro v hres
    simp [matchRoute, hpat, hdc, hg, ha, routeCtx, hres]

/-- Witness for the amended C2: with both fetchers present, `all` runs, its
302 Response is the result, and `get` never appears in the trace. -/
theorem allFetcher_runs_before_get_witness :
    matchRoute { pathname := "/b", params := [] } [routeBoth]
      = (.resp 302 .null, [.load ("/routes/b.tsx"), .callAll ("/routes/b.tsx")]) :=
  (allFetcher_runs_before_get { pathname := "/b", params := [] } routeBoth [] []
      { get := some (fun _ => .value .null),
        all := some (fun _ => .response 302 .null), cacheTtl := none }
      (fun _ => .value .null) (fun _ => .response 302 .null)
      rfl rfl rfl rfl).1 302 .null rfl

/-- C10: a matched route's per-request fetcher attaches a data payload to
the render context only via a Response with status exactly 200, whose body
is parsed as JSON; a non-Response return value — a plain JSON value
included — leaves the context's data absent, and a non-200 Response is
propagated as the result rather than attached. -/
theorem get_fetcher_response_discipline (req : URLModel) (r : Route)
    (rest : List Route) (groups : List (String × String)) (dc : DataConfig)
    (g : URLModel → FetchRes)
    (hpat : r.pattern (cleanPath req.pathname) = some groups)
    (hdc : r.dataExport = some dc) (hg : dc.get = some g) (ha : dc.all = none) :
    (∀ v, g (appendUrlParams req groups) = .value v →
        matchRoute req (r :: rest)
          = (.ctx (routeCtx req r groups dc),
             [.load r.filename, .callGet r.filename]) ∧
        (routeCtx req r groups dc).data = none) ∧
    (∀ b, g (appendUrlParams req groups) = .response 200 b →
        matchRoute req (r :: rest)
          = (.ctx { routeCtx req r groups dc with data := some b },
             [.load r.filename, .callGet r.filename])) ∧
    (∀ st b, ¬st = 200 → g (appendUrlParams req groups) = .response st b →
        matchRoute req (r :: rest)
          = (.resp st b, [.load r.filename, .callGet r.filename])) := by
  refine ⟨?_, ?_, ?_⟩
  · intro v hres
    exact ⟨by simp [matchRoute, hpat, hdc, hg, ha, runGet, routeCtx, hres], rfl⟩
  · intro b hres
    simp [matchRoute, hpat, hdc, hg, ha, runGet, routeCtx, hres]
  · intro st b hst hres
    simp [matchRoute, hpat, hdc, hg, ha, runGet, routeCtx, hres, hst]

/-- Witness for C10: a `get` returning a plain JSON object leaves the
context's data absent. -/
theorem get_fetcher_response_discipline_witness :
    matchRoute { pathname := "/g", params := [] } [routeGetOnly]
      = (.ctx (routeCtx { pathname := "/g", params := [] } routeGetOnly []
            { get := some (fun _ => .value (.obj [(("title"), .str ("Hi"))])),
              all := none, cacheTtl := none }),
         [.load ("/routes/g.tsx"), .callGet ("/routes/g.tsx")]) ∧
    (routeCtx { pathname := "/g", params := [] } routeGetOnly []
        { get := some (fun _ => .value (.obj [(("title"), .str ("Hi"))])),
          all := none, cacheTtl := none }).data = none :=
  (get_fetcher_response_discipline { pathname := "/g", params := [] } routeGetOnly [] []
      { get := some (fun _ => .value (.obj [(("title"), .str ("Hi"))])),
        all := none, cacheTtl := none }
      (fun _ => .value (.obj [(("title"), .str ("Hi"))]))
      rfl rfl rfl rfl).1 (.obj [(("title"), .str ("Hi"))]) rfl

/-! ## Claims about the SSR document rewrite -/

/-- C7: rewrite substitution. For a base document holding an SSR-head marker
and an SSR-body marker (with arbitrary unhandled markup around them) and an
SSR output with a truthy data payload, the rewritten document carries the
markup string verbatim in place of the body marker, each head fragment in
order immediately before where the head marker stood, and the JSON
data script — whose content, per the second conjunct, is exactly the JSON
serialization of the payload; the head marker itself is gone. -/
theorem ssr_rewrite_substitution (u : URLModel) (m : Option String)
    (pre mid post hc : List String) (d : Json) (de : Option Int)
    (fn : Option String) (ssrOutput : String) (hd : d.truthy = true) :
    (renderSSRResponse
        (pre.map .other ++ [.ssrHead] ++ mid.map .other ++ [.ssrBody] ++ post.map .other)
        { url := u, moduleDefaultExport := m, filename := fn,
          data := some d, dataExpires := de } hc ssrOutput).2
      = pre ++ (hc ++ [dataScriptTag d de]
          ++ (match fn with
              | some f => if f = "" then [] else [moduleScriptTag f]
              | none => [])) ++ mid ++ [ssrOutput] ++ post ∧
    dataScriptTag d de
      = "<script id=\"aleph-ssr-data\" type=\"application/json\""
          ++ (if numOptTruthy de then " data-expires=\"route.dataExpires\"" else "")
          ++ ">" ++ Json.stringify d ++ "</script>" := by
  constructor
  · simp [renderSSRResponse, rewriteDoc_append, rewriteDoc_other_map, rewriteDoc,
      rewriteTok, ssrHeadInsert, hd]
  · rfl

/-- Witness for C7: the base document `[ssr-head marker, ssr-body marker]`
with payload `\x7b"title":"Hi"\x7d` and markup `<article>Hi</article>`. -/
theorem ssr_rewrite_substitution_witness :
    (renderSSRResponse [Tok.ssrHead, Tok.ssrBody]
        { url := { pathname := ("/"), params := [] }, moduleDefaultExport := none,
          filename := none, data := some (.obj [(("title"), .str ("Hi"))]),
          dataExpires := none } [] ("<article>Hi</article>")).2
      = ["<script id=\"aleph-ssr-data\" type=\"application/json\">\x7b\"title\":\"Hi\"\x7d</script>",
         "<article>Hi</article>"] :=
  ((ssr_rewrite_substitution { pathname := ("/"), params := [] } none [] [] [] []
      (.obj [(("title"), .str ("Hi"))]) none none ("<article>Hi</article>") rfl).1).trans rfl

/-- C8: on the SSR path the response always carries Content-Type
`text/html; charset=utf-8`, and its Cache-Control is
`public, max-age=<duration>` when the context declares a numeric
cache-expiry duration and `public, max-age=0, must-revalidate` otherwise. -/
theorem ssr_path_headers (indexHtml : List Tok) (route : RenderCtx)
    (hc : List String) (ssrOutput : String) :
    lookupKey ("Content-Type") ((renderSSRResponse indexHtml route hc ssrOutput).1)
      = some ("text/html; charset=utf-8") ∧
    (∀ n, route.dataExpires = some n →
        lookupKey ("Cache-Control") ((renderSSRResponse indexHtml route hc ssrOutput).1)
          = some ("public, max-age=" ++ toString n)) ∧
    (route.dataExpires = none →
        lookupKey ("Cache-Control") ((renderSSRResponse indexHtml route hc ssrOutput).1)
          = some ("public, max-age=0, must-revalidate")) := by
  refine ⟨?_, ?_, ?_⟩
  · cases hde : route.dataExpires <;>
      simp [renderSSRResponse, ssrHeaders, hde, lookupKey]
  · intro n hde
    simp [renderSSRResponse, ssrHeaders, hde, lookupKey]
  · intro hde
    simp [renderSSRResponse, ssrHeaders, hde, lookupKey]

/-- Witness for C8: a declared duration of 60 yields
`Cache-Control: public, max-age=60`. -/
theorem ssr_path_headers_witness :
    lookupKey ("Cache-Control")
      ((renderSSRResponse []
          { url := { pathname := ("/"), params := [] }, moduleDefaultExport := none,
            filename := none, data := none, dataExpires := some 60 }
          [] ("")).1)
      = some ("public, max-age=60") :=
  ((ssr_path_headers []
      { url := { pathname := ("/"), params := [] }, moduleDefaultExport := none,
        filename := none, data := none, dataExpires := some 60 }
      [] ("")).2.1 60 rfl).trans rfl

/-- C9: when the data payload is present and the declared cache-expiry
duration is truthy, the data script's data-expires attribute is the fixed
literal text `route.dataExpires` — the variable name from the source's
template string — independent of the duration's numeric value; with the
duration 0 or absent no attribute is emitted at all. -/
theorem data_expires_literal_attr (d : Json) (n : Int) (hn : ¬n = 0) :
    dataScriptTag d (some n)
      = "<script id=\"aleph-ssr-data\" type=\"application/json\" data-expires=\"route.dataExpires\">"
        ++ Json.stringify d ++ "</script>" ∧
    dataScriptTag d (some 0)
      = "<script id=\"aleph-ssr-data\" type=\"application/json\">"
        ++ Json.stringify d ++ "</script>" ∧
    dataScriptTag d none
      = "<script id=\"aleph-ssr-data\" type=\"application/json\">"
        ++ Json.stringify d ++ "</script>" := by
  refine ⟨?_, rfl, rfl⟩
  unfold dataScriptTag
  rw [show numOptTruthy (some n) = true from by simp [numOptTruthy, hn]]
  rfl

/-- Witness for C9: duration 60 produces the literal attribute text, not the
number 60. -/
theorem data_expires_literal_attr_witness :
    dataScriptTag (.obj [(("title"), .str ("Hi"))]) (some 60)
      = "<script id=\"aleph-ssr-data\" type=\"application/json\" data-expires=\"route.dataExpires\">\x7b\"title\":\"Hi\"\x7d</script>" :=
  ((data_expires_literal_attr (.obj [(("title"), .str ("Hi"))]) 60 (by decide)).1).trans rfl

end Aleph
